import Mathlib

/-!
# Verification of `resspect/time_domain_SNPCC.py`

A shallow embedding of the `SNPCCPhotometry` class from
`src/resspect/time_domain_SNPCC.py`.  Pure Python code is translated into
executable Lean definitions; the mutable instance attributes become an
explicit `PhotoState` record threaded through the operations; Python
exceptions become an explicit `PyErr` error type returned through
`Except` (or an `Option PyErr` component paired with the output written
so far, for the streaming writer).  The external collaborators
(`LightCurve.load_snpcc_lc`, `fit_bazin_all`, `check_queryable`,
`calc_exp_time`) are abstracted as an `Ext` record of functions, exactly
as the spec treats them (external components specified only by their
contracts).
-/

namespace RESSPECT

/-- Python runtime errors that the modelled code can raise. -/
inductive PyErr where
  | valueError (msg : String)
  | indexError
  | attributeError (msg : String)
  deriving Repr, DecidableEq

/-- Boolean test: is `pre` a prefix of the second list (character-wise)? -/
def charsPre : List Char → List Char → Bool
  | [], _ => true
  | _ :: _, [] => false
  | a :: as, b :: bs => a == b && charsPre as bs

/-- Boolean test: does `needle` occur as a contiguous sublist of `hay`?
This models Python's substring operator `needle in hay` on strings. -/
def charsSub (needle : List Char) : List Char → Bool
  | [] => charsPre needle []
  | b :: bs => charsPre needle (b :: bs) || charsSub needle bs

/-- Python's `needle in hay` substring test. -/
def strContains (hay needle : String) : Bool :=
  charsSub needle.data hay.data

/-- Python list indexing `l[n]`, raising `IndexError` when out of range. -/
def pyIndex {α : Type} (l : List α) (n : Nat) : Except PyErr α :=
  match l[n]? with
  | some x => Except.ok x
  | none => Except.error PyErr.indexError

/-- Python's `str` of a boolean. -/
def pyStr (b : Bool) : String := if b then "True" else "False"

/-- The hard-coded header set in `SNPCCPhotometry.__init__` (lines 60-63),
with the string concatenations already performed. -/
def BAZIN_HEADER_COST : String :=
  "id redshift type code orig_sample queryable last_rmag cost_4m cost_8m gA gB gt0 gtfall gtrise rA rB rt0 rtfall rtrise iA iB it0 itfall itrise zA zB zt0 ztfall ztrise\n"

/-- The cost-free header that `create_daily_file` assigns to
`self.bazin_header` when `get_cost` is false (lines 140-144). -/
def BAZIN_HEADER_NOCOST : String :=
  "id redshift type code orig_sample queryable last_rmag gA gB gt0 gtfall gtrise rA rB rt0 rtfall rtrise iA iB it0 itfall itrise zA zB zt0 ztfall ztrise\n"

/-- Split a character list into groups at each occurrence of `sep`
(Python's `str.split(sep)` semantics: `n` separators yield `n + 1`
groups). -/
def splitChars (sep : Char) : List Char → List (List Char)
  | [] => [[]]
  | c :: cs =>
    let r := splitChars sep cs
    if c == sep then [] :: r
    else
      match r with
      | [] => [[c]]
      | g :: gs => (c :: g) :: gs

/-- Drop the trailing newline of a line, if present. -/
def stripNl (l : List Char) : List Char :=
  (l.reverse.dropWhile (fun c => c == '\n')).reverse

/-- The space-delimited fields of a header or record line (trailing
newline stripped, then split on single spaces). -/
def lineFields (s : String) : List String :=
  (splitChars ' ' (stripNl s.data)).map (fun l => { data := l })

/-- Number of space-delimited fields in a header or record line. -/
def countFields (s : String) : Nat := (lineFields s).length

/-- Mutable attributes of a `SNPCCPhotometry` instance.  `headerAttr`
models the attribute `self.header`: `none` means the attribute was never
assigned (accessing it raises `AttributeError`); no method of the class
ever assigns it. -/
structure PhotoState where
  bazinHeader : String
  headerAttr : Option String
  minEpoch : Int
  maxEpoch : Int
  rmagLim : Int
  deriving Repr, DecidableEq

/-- `SNPCCPhotometry.__init__` (lines 57-66). -/
def SNPCCPhotometry_init : PhotoState :=
  { bazinHeader := BAZIN_HEADER_COST
    headerAttr := none
    minEpoch := 56171
    maxEpoch := 56352
    rmagLim := 24 }

/-- `create_daily_file` (lines 108-149), restricted to its observable
effect: the new instance state and the content written to the (freshly
truncated) day file.  Opening with mode `'w'` truncates, so the returned
string is the file's entire content after the call.  The `header` match
and the `get_cost` branch follow lines 134-149: the non-`'Bazin'` branch
writes `self.header`, an attribute `__init__` never sets. -/
def create_daily_file (st : PhotoState) (header : String) (getCost : Bool) :
    Except PyErr (PhotoState × String) :=
  if header = "Bazin" then
    if getCost then
      Except.ok (st, st.bazinHeader)
    else
      Except.ok ({ st with bazinHeader := BAZIN_HEADER_NOCOST }, BAZIN_HEADER_NOCOST)
  else
    match st.headerAttr with
    | some h => Except.ok (st, h)
    | none => Except.error (PyErr.attributeError "header")

/-- Error message raised by the telescope-name check (lines 212-214). -/
def telNameMsg : String :=
  "Telescope names are hard coded in header.\n Change attribute \"bazin_header\" to continue!"

/-- Error message raised for a non-SNPCC dataset (lines 237-238). -/
def datasetMsg : String := "This module only deals with the SNPCC data set.!"

/-- Error message raised for a non-Bazin feature method (line 254). -/
def featureMsg : String := "Only Bazin features are implemented!"

/-- The telescope-name precondition check of `build_one_epoch`
(lines 209-214), with Python's evaluation order made explicit:
`tel_names[0]` is indexed unconditionally; `tel_names[1]` is indexed
only when `'cost_' + tel_names[0]` is found in the header (because `or`
short-circuits); the `ValueError` is raised only when the disjunction
holds *and* `get_cost` is true. -/
def telescopeCheck (header : String) (telNames : List String) (getCost : Bool) :
    Except PyErr Unit :=
  match telNames[0]? with
  | none => Except.error PyErr.indexError
  | some t0 =>
    if strContains header ("cost_" ++ t0) = false then
      if getCost then Except.error (PyErr.valueError telNameMsg) else Except.ok ()
    else
      match telNames[1]? with
      | none => Except.error PyErr.indexError
      | some t1 =>
        if strContains header ("cost_" ++ t1) = false then
          if getCost then Except.error (PyErr.valueError telNameMsg) else Except.ok ()
        else Except.ok ()

/-- An object's raw light curve as produced by the external loader
`LightCurve.load_snpcc_lc`: the static metadata written into a record,
plus the observation times (`mjd` column) of its photometric points.
Metadata fields are kept as the strings `str(...)` would print. -/
structure RawLC where
  id : String
  redshift : String
  sntype : String
  sncode : String
  sample : String
  mjds : List Int
  deriving Repr, DecidableEq

/-- The external collaborators invoked by `build_one_epoch`, specified
only by their signatures (spec §1: excluded components).
* `fit` models `fit_bazin_all` on the truncated photometry: the
  resulting `bazin_features` list, stringified, with `"None"` as the
  failure sentinel;
* `checkQ` models `check_queryable lc mjd filter_lim criteria
  days_since_last_obs`;
* `lastMag` models the `last_mag` attribute available after the fit;
* `expTime` models `ExpTimeCalc.findexptime` for a given telescope
  diameter and name (the `SNR` and `kwargs` arguments are fixed for a
  whole `build_one_epoch` call, hence absorbed into the function). -/
structure Ext where
  fit : List Int → List String
  checkQ : RawLC → List Int → Int → Int → Nat → Nat → Bool
  lastMag : RawLC → List Int → String
  expTime : RawLC → Int → String → Int

/-- Arguments of `build_one_epoch` that the claims range over. -/
structure BuildArgs where
  dayOfSurvey : Int
  featureMethod : String
  dataset : String
  daysSinceObs : Nat
  queryableCriteria : Nat
  getCost : Bool
  telSizes : List Int
  telNames : List String
  deriving Repr, DecidableEq

/-- The photometry surviving the cutoff of a given day: points with
`mjd <= day_of_survey + self.min_epoch` (lines 241-242, 248). -/
def truncMjds (st : PhotoState) (a : BuildArgs) (lc : RawLC) : List Int :=
  lc.mjds.filter (fun m => decide (m ≤ a.dayOfSurvey + st.minEpoch))

/-- The exposure-time loop of `build_one_epoch` (lines 271-274):
`for k in range(len(tel_names)): lc.calc_exp_time(tel_sizes[k],
tel_names[k], ...)`.  Indexing `tel_sizes[k]` raises `IndexError` when
the sizes list is shorter than the names list.  The resulting
`lc.exp_time` dictionary is modelled as an association list with the
most recent assignment in front. -/
def calcExpTimes (E : Ext) (lc : RawLC) (sizes : List Int) :
    List String → Nat → List (String × Int) → Except PyErr (List (String × Int))
  | [], _, acc => Except.ok acc
  | n :: rest, k, acc =>
    match sizes[k]? with
    | none => Except.error PyErr.indexError
    | some s => calcExpTimes E lc sizes rest (k + 1) ((n, E.expTime lc s n) :: acc)

/-- Lookup `lc.exp_time[name]` in the modelled dictionary.  Every name in
`tel_names` has been assigned by the loop before any lookup happens, so
the default branch is unreachable in the modelled code paths. -/
def dictLookup (d : List (String × Int)) (k : String) : Int :=
  match d.find? (fun p => p.1 == k) with
  | some p => p.2
  | none => 0

/-- The fields of one snapshot record, in the exact order written by
lines 287-300: id, redshift, type, code, sample, queryable flag, last
magnitude, then (cost path only) one exposure time per telescope name,
then the fitted features. -/
def recordFields (lc : RawLC) (queryable : Bool) (lm : String)
    (cost : List String) (feats : List String) : List String :=
  [lc.id, lc.redshift, lc.sntype, lc.sncode, lc.sample, pyStr queryable, lm] ++ cost ++ feats

/-- The body of `build_one_epoch`'s per-object loop (lines 227-300),
returning `some record` when a record is appended for this object,
`none` when the object is skipped, and an error when the iteration
raises.  Branch order follows the source: dataset check wrapping the
load (lines 234-238), truncation (241-248), survivorship gate
`sum(photo_flag) > 4` (246), feature-method check (251-254), fit (252),
completeness gate `len(...) > 0 and 'None' not in ...` (257-258),
queryability (265-268), optional cost computation and queryable
override (270-284), record assembly (287-300). -/
def processObj (st : PhotoState) (E : Ext) (a : BuildArgs) (lc : RawLC) :
    Except PyErr (Option (List String)) :=
  if a.dataset = "SNPCC" then
    if 4 < (truncMjds st a lc).length then
      if a.featureMethod = "Bazin" then
        if 0 < (E.fit (truncMjds st a lc)).length ∧ "None" ∉ E.fit (truncMjds st a lc) then
          if a.getCost then
            -- the `check_queryable` result computed at lines 265-268 is
            -- overwritten by the assignment at line 284 on this path,
            -- so only the cost-based flag reaches the record
            match calcExpTimes E lc a.telSizes a.telNames 0 [] with
            | Except.error e => Except.error e
            | Except.ok d =>
              Except.ok (some (recordFields lc
                (a.telNames.any (fun n => decide (dictLookup d n < 7200)))
                (E.lastMag lc (truncMjds st a lc))
                (a.telNames.map (fun n => toString (dictLookup d n)))
                (E.fit (truncMjds st a lc))))
          else
            Except.ok (some (recordFields lc
              (E.checkQ lc (truncMjds st a lc) (st.minEpoch + a.dayOfSurvey)
                st.rmagLim a.queryableCriteria a.daysSinceObs)
              (E.lastMag lc (truncMjds st a lc)) []
              (E.fit (truncMjds st a lc))))
        else Except.ok none
      else Except.error (PyErr.valueError featureMsg)
    else Except.ok none
  else Except.error (PyErr.valueError datasetMsg)

/-- The catalog loop of `build_one_epoch`: records are appended one at a
time in streaming fashion, so on an error the records already produced
remain written.  Returns the list of appended records together with the
error that aborted the loop, if any. -/
def processAll (st : PhotoState) (E : Ext) (a : BuildArgs) :
    List RawLC → List (List String) × Option PyErr
  | [] => ([], none)
  | lc :: rest =>
    match processObj st E a lc with
    | Except.error e => ([], some e)
    | Except.ok none => processAll st E a rest
    | Except.ok (some r) =>
      match processAll st E a rest with
      | (rs, e) => (r :: rs, e)

/-- `build_one_epoch` (lines 151-300): the telescope-name check runs
first (before the raw-data directory is even listed); then the catalog
(the `DES_SN` files of the raw-data directory, loaded by the external
provider) is processed object by object. -/
def build_one_epoch (st : PhotoState) (E : Ext) (a : BuildArgs)
    (catalog : List RawLC) : List (List String) × Option PyErr :=
  match telescopeCheck st.bazinHeader a.telNames a.getCost with
  | Except.error e => ([], some e)
  | Except.ok _ => processAll st E a catalog

/-- One record as written to the file: fields separated by single
spaces, terminated by a newline (lines 287-300 write each field followed
by a space and the final feature followed by the newline). -/
def renderRecord (r : List String) : String := String.intercalate " " r ++ "\n"

/-- Concatenation of all appended record lines. -/
def renderAll (rs : List (List String)) : String := String.join (rs.map renderRecord)

/-- Scenario: `create_daily_file` once, then `build_one_epoch` once on
the same day file.  Returns the file's final content and the error that
aborted the run, if any. -/
def runInitThenBuild (st : PhotoState) (E : Ext) (a : BuildArgs)
    (header : String) (gc : Bool) (catalog : List RawLC) : String × Option PyErr :=
  match create_daily_file st header gc with
  | Except.error e => ("", some e)
  | Except.ok (st1, f) =>
    match build_one_epoch st1 E a catalog with
    | (rs, e) => (f ++ renderAll rs, e)

/-- Scenario: `create_daily_file` twice for the same day (the second
call truncates the file again), then `build_one_epoch` once. -/
def runInitTwiceThenBuild (st : PhotoState) (E : Ext) (a : BuildArgs)
    (header : String) (gc : Bool) (catalog : List RawLC) : String × Option PyErr :=
  match create_daily_file st header gc with
  | Except.error e => ("", some e)
  | Except.ok (st1, _) =>
    match create_daily_file st1 header gc with
    | Except.error e => ("", some e)
    | Except.ok (st2, f) =>
      match build_one_epoch st2 E a catalog with
      | (rs, e) => (f ++ renderAll rs, e)

/-- The per-object outcome of a non-raising run: the record appended for
this object, when one is. -/
def objRecord (st : PhotoState) (E : Ext) (a : BuildArgs) (lc : RawLC) :
    Option (List String) :=
  match processObj st E a lc with
  | Except.ok r => r
  | Except.error _ => none

/-! ## Concrete instances used by witnesses and counterexamples -/

/-- A trivial set of external collaborators: every fit returns the empty
feature list. -/
def trivExt : Ext :=
  { fit := fun _ => []
    checkQ := fun _ _ _ _ _ _ => false
    lastMag := fun _ _ => "0"
    expTime := fun _ _ _ => 0 }

/-- External collaborators whose fit always succeeds with the 20
features of the SNPCC/Bazin configuration (5 parameters for each of the
4 bands) and whose exposure times are all 100. -/
def extFit20 : Ext :=
  { fit := fun _ => List.replicate 20 "1.0"
    checkQ := fun _ _ _ _ _ _ => false
    lastMag := fun _ _ => "20.5"
    expTime := fun _ _ _ => 100 }

/-- A light curve with 5 photometric points in the first days of the
survey: it passes the survivorship gate on day 20. -/
def lcA : RawLC :=
  { id := "1"
    redshift := "0.1"
    sntype := "Ia"
    sncode := "0"
    sample := "test"
    mjds := [56172, 56173, 56174, 56175, 56176] }

/-- Arguments of a plain supported run: SNPCC dataset, Bazin features,
no cost computation, the default telescope configuration, day 20. -/
def argsPlain : BuildArgs :=
  { dayOfSurvey := 20
    featureMethod := "Bazin"
    dataset := "SNPCC"
    daysSinceObs := 2
    queryableCriteria := 1
    getCost := false
    telSizes := [4, 8]
    telNames := ["4m", "8m"] }

/-- The plain run with cost computation enabled. -/
def argsCost : BuildArgs := { argsPlain with getCost := true }

/-- Cost computation with a three-element telescope list whose first two
names pass the header check. -/
def argsThreeTel : BuildArgs :=
  { argsPlain with
    getCost := true
    telSizes := [4, 8, 4]
    telNames := ["4m", "8m", "4m"] }

/-- A run configured with an unsupported dataset name. -/
def argsBadDataset : BuildArgs := { argsPlain with dataset := "PLASTICC" }

/-- A run with cost computation disabled and a single-element telescope
configuration. -/
def argsOneTel : BuildArgs :=
  { argsPlain with telSizes := [4], telNames := ["4m"] }

/-- The exposure-time dictionary `calcExpTimes` produces for `extFit20`,
`lcA` and the default telescope configuration. -/
def dictC2 : List (String × Int) := [("8m", 100), ("4m", 100)]

/-- The record `processObj` produces for `extFit20`, `lcA` and
`argsCost`. -/
def recC2 : List String :=
  ["1", "0.1", "Ia", "0", "test", "True", "20.5", "100", "100"] ++
    List.replicate 20 "1.0"

/-- The 27 column names of the cost-free `'Bazin'` header: the 7
metadata fields followed by 5 model-parameter columns (`A`, `B`, `t0`,
`tfall`, `trise`) for each of the 4 bands `g r i z`. -/
def nocostHeaderFields : List String :=
  ["id", "redshift", "type", "code", "orig_sample", "queryable", "last_rmag",
   "gA", "gB", "gt0", "gtfall", "gtrise",
   "rA", "rB", "rt0", "rtfall", "rtrise",
   "iA", "iB", "it0", "itfall", "itrise",
   "zA", "zB", "zt0", "ztfall", "ztrise"]

/-! ## Helper lemmas -/

/-- The cost-variant header has 29 space-delimited fields. -/
lemma countFields_cost : countFields BAZIN_HEADER_COST = 29 := by rfl

/-- The cost-free header has 27 space-delimited fields. -/
lemma countFields_nocost : countFields BAZIN_HEADER_NOCOST = 27 := by rfl

/-- `pyStr` prints `"True"` exactly for `true`. -/
lemma pyStr_eq_true_iff (b : Bool) : pyStr b = "True" ↔ b = true := by
  cases b <;> simp [pyStr]

/-- Field 5 of a record (0-based) is the queryable flag. -/
lemma recordFields_getElem5 (lc : RawLC) (q : Bool) (lm : String)
    (cost feats : List String) :
    (recordFields lc q lm cost feats)[5]? = some (pyStr q) := rfl

/-- Field count of an assembled record. -/
lemma recordFields_length (lc : RawLC) (q : Bool) (lm : String)
    (cost feats : List String) :
    (recordFields lc q lm cost feats).length = 7 + (cost.length + feats.length) := by
  simp [recordFields]
  omega

/-- The exposure-time loop only consults `expTime`, so it is unchanged
between collaborator records agreeing on `expTime`. -/
lemma calcExpTimes_congr (E E2 : Ext) (lc : RawLC)
    (he : E2.expTime = E.expTime) (sizes : List Int) :
    ∀ (names : List String) (k : Nat) (acc : List (String × Int)),
      calcExpTimes E2 lc sizes names k acc = calcExpTimes E lc sizes names k acc := by
  intro names
  induction names with
  | nil => intro k acc; rfl
  | cons n rest ih =>
    intro k acc
    simp only [calcExpTimes, he]
    cases sizes[k]? with
    | none => rfl
    | some s => exact ih (k + 1) _

/-- When the sizes list is long enough for the names still to be
processed, the exposure-time loop cannot raise `IndexError`. -/
lemma calcExpTimes_ok (E : Ext) (lc : RawLC) (sizes : List Int) :
    ∀ (names : List String) (k : Nat) (acc : List (String × Int)),
      names.length + k ≤ sizes.length →
      ∃ d, calcExpTimes E lc sizes names k acc = Except.ok d := by
  intro names
  induction names with
  | nil => exact fun k acc _ => ⟨acc, rfl⟩
  | cons n rest ih =>
    intro k acc h
    have hk : k < sizes.length := by
      simp only [List.length_cons] at h
      omega
    have hget : sizes[k]? = some sizes[k] := List.getElem?_eq_getElem hk
    simp only [calcExpTimes, hget]
    exact ih (k + 1) _ (by simp only [List.length_cons] at h; omega)

/-- With a supported dataset and feature method and a telescope-size
list covering the names, the per-object loop body cannot raise, and its
outcome is `objRecord`. -/
lemma processObj_eq_objRecord (st : PhotoState) (E : Ext) (a : BuildArgs)
    (lc : RawLC) (hds : a.dataset = "SNPCC") (hfm : a.featureMethod = "Bazin")
    (hlen : a.telNames.length ≤ a.telSizes.length) :
    processObj st E a lc = Except.ok (objRecord st E a lc) := by
  by_cases h1 : 4 < (truncMjds st a lc).length
  · by_cases h2 : 0 < (E.fit (truncMjds st a lc)).length ∧
        "None" ∉ E.fit (truncMjds st a lc)
    · cases hgc : a.getCost with
      | false => simp [objRecord, processObj, hds, hfm, h1, h2, hgc]
      | true =>
        obtain ⟨d, hd⟩ := calcExpTimes_ok E lc a.telSizes a.telNames 0 []
          (by omega)
        simp [objRecord, processObj, hds, hfm, h1, h2, hgc, hd]
    · simp [objRecord, processObj, hds, hfm, h1, h2]
  · simp [objRecord, processObj, hds, hfm, h1]

/-- Under the same hypotheses, a record is produced for an object
exactly when the survivorship and fit-completeness gates pass. -/
lemma objRecord_isSome_iff (st : PhotoState) (E : Ext) (a : BuildArgs)
    (lc : RawLC) (hds : a.dataset = "SNPCC") (hfm : a.featureMethod = "Bazin")
    (hlen : a.telNames.length ≤ a.telSizes.length) :
    (objRecord st E a lc).isSome = true ↔
      (4 < (truncMjds st a lc).length ∧
       0 < (E.fit (truncMjds st a lc)).length ∧
       "None" ∉ E.fit (truncMjds st a lc)) := by
  by_cases h1 : 4 < (truncMjds st a lc).length
  · by_cases h2 : 0 < (E.fit (truncMjds st a lc)).length ∧
        "None" ∉ E.fit (truncMjds st a lc)
    · cases hgc : a.getCost with
      | false => simp [objRecord, processObj, hds, hfm, h1, h2.1, h2.2, hgc]
      | true =>
        obtain ⟨d, hd⟩ := calcExpTimes_ok E lc a.telSizes a.telNames 0 []
          (by omega)
        simp [objRecord, processObj, hds, hfm, h1, h2.1, h2.2, hgc, hd]
    · simp only [objRecord, processObj, if_pos hds, if_pos hfm, if_pos h1,
        if_neg h2]
      simp only [Option.isSome_none, Bool.false_eq_true, false_iff]
      exact fun h => h2 ⟨h.2.1, h.2.2⟩
  · simp only [objRecord, processObj, if_pos hds, if_neg h1]
    simp only [Option.isSome_none, Bool.false_eq_true, false_iff]
    exact fun h => h1 h.1

/-- Shape of a record appended on the cost path: the queryable flag and
the cost columns come from the exposure-time dictionary. -/
lemma processObj_some_cost (st : PhotoState) (E : Ext) (a : BuildArgs)
    (lc : RawLC) (r : List String) (hc : a.getCost = true)
    (h : processObj st E a lc = Except.ok (some r)) :
    ∃ d, calcExpTimes E lc a.telSizes a.telNames 0 [] = Except.ok d ∧
      r = recordFields lc
        (a.telNames.any fun n => decide (dictLookup d n < 7200))
        (E.lastMag lc (truncMjds st a lc))
        (a.telNames.map fun n => toString (dictLookup d n))
        (E.fit (truncMjds st a lc)) := by
  unfold processObj at h
  split at h
  · split at h
    · split at h
      · split at h
        · split at h
          · exact absurd h (by simp)
          · rename_i d heq
            refine ⟨d, heq, ?_⟩
            simp only [Except.ok.injEq, Option.some.injEq] at h
            exact h.symm
        · exact absurd h (by simp)
      · exact absurd h (by simp)
    · exact absurd h (by simp)
  · exact absurd h (by simp)

/-- Shape of a record appended on the cost-free path: the queryable flag
comes from `check_queryable` and there are no cost columns. -/
lemma processObj_some_nocost (st : PhotoState) (E : Ext) (a : BuildArgs)
    (lc : RawLC) (r : List String) (hc : a.getCost = false)
    (h : processObj st E a lc = Except.ok (some r)) :
    r = recordFields lc
      (E.checkQ lc (truncMjds st a lc) (st.minEpoch + a.dayOfSurvey)
        st.rmagLim a.queryableCriteria a.daysSinceObs)
      (E.lastMag lc (truncMjds st a lc)) []
      (E.fit (truncMjds st a lc)) := by
  unfold processObj at h
  split at h
  · split at h
    · split at h
      · split at h
        · rw [if_neg (by simp [hc])] at h
          simp only [Except.ok.injEq, Option.some.injEq] at h
          exact h.symm
        · exact absurd h (by simp)
      · exact absurd h (by simp)
    · exact absurd h (by simp)
  · exact absurd h (by simp)

/-- On the cost path, the per-object step ignores `checkQ` entirely:
collaborator records agreeing on `fit`, `lastMag` and `expTime` give
identical outcomes. -/
lemma processObj_congr_cost (st : PhotoState) (E E2 : Ext) (a : BuildArgs)
    (lc : RawLC) (hc : a.getCost = true) (hf : E2.fit = E.fit)
    (hl : E2.lastMag = E.lastMag) (he : E2.expTime = E.expTime) :
    processObj st E2 a lc = processObj st E a lc := by
  unfold processObj
  rw [hf, hl, calcExpTimes_congr E E2 lc he a.telSizes a.telNames 0 [],
    if_pos hc, if_pos hc]

/-- When no object raises, the catalog loop appends exactly the records
of `objRecord` and reports no error. -/
lemma processAll_eq_filterMap (st : PhotoState) (E : Ext) (a : BuildArgs)
    (h : ∀ lc, processObj st E a lc = Except.ok (objRecord st E a lc)) :
    ∀ catalog, processAll st E a catalog =
      (catalog.filterMap (objRecord st E a), none) := by
  intro catalog
  induction catalog with
  | nil => rfl
  | cons lc rest ih =>
    rw [processAll, h lc]
    cases hr : objRecord st E a lc with
    | none => simp [List.filterMap_cons, hr, ih]
    | some r => simp [List.filterMap_cons, hr, ih]

/-! ## Claims -/

/-- C1: on a supported configuration (SNPCC dataset, Bazin features,
telescope sizes covering the names, telescope check passing), for every
simulated day and every object in the catalog, `build_one_epoch`
appends a record for the object if and only if (a) the object has
strictly more than 4 photometric points with observation time at or
before the day's cutoff, and (b) the fit over the truncated photometry
produces a non-empty feature list containing no `'None'` failure
sentinel. -/
theorem C1_record_iff_gates (st : PhotoState) (E : Ext) (a : BuildArgs)
    (catalog : List RawLC)
    (hds : a.dataset = "SNPCC") (hfm : a.featureMethod = "Bazin")
    (hlen : a.telNames.length ≤ a.telSizes.length)
    (hTel : telescopeCheck st.bazinHeader a.telNames a.getCost = Except.ok ()) :
    build_one_epoch st E a catalog =
      (catalog.filterMap (objRecord st E a), none) ∧
    ∀ lc, (objRecord st E a lc).isSome = true ↔
      (4 < (truncMjds st a lc).length ∧
       0 < (E.fit (truncMjds st a lc)).length ∧
       "None" ∉ E.fit (truncMjds st a lc)) := by
  constructor
  · unfold build_one_epoch
    rw [hTel]
    exact processAll_eq_filterMap st E a
      (fun lc => processObj_eq_objRecord st E a lc hds hfm hlen) catalog
  · exact fun lc => objRecord_isSome_iff st E a lc hds hfm hlen

/-- Witness for C1: the hypotheses hold at a concrete supported
configuration, and the run appends exactly the per-object records. -/
theorem C1_record_iff_gates_witness :
    telescopeCheck SNPCCPhotometry_init.bazinHeader argsPlain.telNames
      argsPlain.getCost = Except.ok () ∧
    build_one_epoch SNPCCPhotometry_init extFit20 argsPlain [lcA] =
      ([lcA].filterMap (objRecord SNPCCPhotometry_init extFit20 argsPlain),
        none) :=
  ⟨by rfl,
    (C1_record_iff_gates SNPCCPhotometry_init extFit20 argsPlain [lcA]
      rfl rfl (by decide) (by rfl)).1⟩

/-- C2: when cost computation is enabled, the queryable field of every
record written by the per-object step is `"True"` exactly when at least
one configured telescope's computed exposure time is strictly below
7200; and this value replaces the criterion-1/2 decision: the record
does not depend on `check_queryable` at all (any collaborator record
agreeing on `fit`, `lastMag` and `expTime` but with an arbitrary
`checkQ` produces the same record). -/
theorem C2_cost_overrides_queryable (st : PhotoState) (E : Ext)
    (a : BuildArgs) (lc : RawLC) (r : List String) (d : List (String × Int))
    (hc : a.getCost = true)
    (hd : calcExpTimes E lc a.telSizes a.telNames 0 [] = Except.ok d)
    (h : processObj st E a lc = Except.ok (some r)) :
    (r[5]? = some "True" ↔ ∃ n ∈ a.telNames, dictLookup d n < 7200) ∧
    (∀ E2 : Ext, E2.fit = E.fit → E2.lastMag = E.lastMag →
      E2.expTime = E.expTime →
      processObj st E2 a lc = Except.ok (some r)) := by
  obtain ⟨d0, heq, hr⟩ := processObj_some_cost st E a lc r hc h
  have hdd : d0 = d := by
    rw [hd] at heq
    exact (Except.ok.injEq _ _ ▸ heq).symm
  subst hdd
  constructor
  · rw [hr, recordFields_getElem5]
    simp only [Option.some.injEq, pyStr_eq_true_iff, List.any_eq_true,
      decide_eq_true_eq]
  · intro E2 hf hl he
    rw [processObj_congr_cost st E E2 a lc hc hf hl he]
    exact h

/-- Witness for C2: a concrete cost-enabled run writes a record whose
queryable field is `"True"`, as both exposure times are below 7200. -/
theorem C2_cost_overrides_queryable_witness :
    processObj SNPCCPhotometry_init extFit20 argsCost lcA =
      Except.ok (some recC2) ∧
    recC2[5]? = some "True" :=
  ⟨by rfl,
    ((C2_cost_overrides_queryable SNPCCPhotometry_init extFit20 argsCost lcA
        recC2 dictC2 rfl (by rfl) (by rfl)).1).mpr ⟨"4m", by decide, by decide⟩⟩

/-- C3 counterexample: with a three-element telescope-name list whose
first two names pass the header check, a cost-enabled run appends a
record with 30 fields while the active (cost-variant) header has 29
fields — so the claim's "for any length of the telescope-name list" is
false. -/
theorem C3_cex_three_telescopes :
    (build_one_epoch SNPCCPhotometry_init extFit20 argsThreeTel [lcA]).1.map
        List.length = [30] ∧
    countFields SNPCCPhotometry_init.bazinHeader = 29 :=
  ⟨by decide, by rfl⟩

/-- C3 amended: every record written by the per-object step has as many
fields as the matching header variant, provided the telescope-name list
has length 2 and the fit always yields the 20 features of the
SNPCC/Bazin configuration. -/
theorem C3_fields_match_header (st : PhotoState) (E : Ext) (a : BuildArgs)
    (lc : RawLC) (r : List String)
    (hfit : ∀ p, (E.fit p).length = 20)
    (htel : a.telNames.length = 2)
    (h : processObj st E a lc = Except.ok (some r)) :
    r.length =
      countFields (if a.getCost then BAZIN_HEADER_COST else BAZIN_HEADER_NOCOST) := by
  cases hc : a.getCost with
  | true =>
    obtain ⟨d, _, hr⟩ := processObj_some_cost st E a lc r hc h
    rw [hr, recordFields_length]
    simp [List.length_map, htel, hfit, countFields_cost]
  | false =>
    have hr := processObj_some_nocost st E a lc r hc h
    rw [hr, recordFields_length]
    simp [hfit, countFields_nocost]

/-- Witness for C3 (amended): a concrete cost-enabled record has
exactly as many fields as the cost-variant header. -/
theorem C3_fields_match_header_witness :
    processObj SNPCCPhotometry_init extFit20 argsCost lcA =
      Except.ok (some recC2) ∧
    recC2.length =
      countFields
        (if argsCost.getCost then BAZIN_HEADER_COST else BAZIN_HEADER_NOCOST) :=
  ⟨by rfl,
    C3_fields_match_header SNPCCPhotometry_init extFit20 argsCost lcA recC2
      (fun _ => rfl) (by rfl) (by rfl)⟩

/-- C4 counterexample: with an unsupported dataset name but an empty
raw-data catalog, `build_one_epoch` returns without raising any error —
the dataset check sits inside the per-object loop, so it is *not*
raised "regardless of the contents of the raw-data directory". -/
theorem C4_cex_empty_catalog_no_error :
    build_one_epoch SNPCCPhotometry_init trivExt argsBadDataset [] =
      ([], none) := by rfl

/-- C4 amended: with the telescope check passing, an unsupported
dataset name raises `ValueError` (at the first loop iteration, before
any record is written) iff the catalog is non-empty; an unsupported
feature method raises iff some object passes the survivorship gate —
and in either error case no record has been written (first component
`[]`). -/
theorem C4_config_errors_amended (st : PhotoState) (E : Ext) (a : BuildArgs)
    (catalog : List RawLC)
    (hTel : telescopeCheck st.bazinHeader a.telNames a.getCost = Except.ok ()) :
    (a.dataset ≠ "SNPCC" →
      (build_one_epoch st E a catalog =
        ([], some (PyErr.valueError datasetMsg)) ↔ catalog ≠ [])) ∧
    (a.dataset = "SNPCC" → a.featureMethod ≠ "Bazin" →
      (build_one_epoch st E a catalog =
        ([], some (PyErr.valueError featureMsg)) ↔
       ∃ lc ∈ catalog, 4 < (truncMjds st a lc).length)) := by
  unfold build_one_epoch
  simp only [hTel]
  constructor
  · intro hds
    cases catalog with
    | nil => simp [processAll]
    | cons lc rest => simp [processAll, processObj, if_neg hds]
  · intro hds hfm
    induction catalog with
    | nil => simp [processAll]
    | cons lc rest ih =>
      by_cases hsurv : 4 < (truncMjds st a lc).length
      · rw [processAll]
        have hobj : processObj st E a lc =
            Except.error (PyErr.valueError featureMsg) := by
          unfold processObj
          rw [if_pos hds, if_pos hsurv, if_neg hfm]
        rw [hobj]
        simp [hsurv]
      · rw [processAll]
        have hobj : processObj st E a lc = Except.ok none := by
          unfold processObj
          rw [if_pos hds, if_neg hsurv]
        rw [hobj, ih]
        simp [hsurv]

/-- Witness for C4 (amended): with a non-empty catalog, the unsupported
dataset name "PLASTICC" aborts the run with the dataset `ValueError`
and no record written. -/
theorem C4_config_errors_amended_witness :
    build_one_epoch SNPCCPhotometry_init trivExt argsBadDataset [lcA] =
      ([], some (PyErr.valueError datasetMsg)) :=
  ((C4_config_errors_amended SNPCCPhotometry_init trivExt argsBadDataset
      [lcA] (by rfl)).1 (by decide)).mpr (by simp)

set_option maxRecDepth 8192 in
/-- C5 counterexample: requesting cost computation with the telescope
names `["4m", "8m", "XX"]` against the default header raises no error,
although `cost_XX` does not occur in the header — only the first two
names are ever checked, so "every configured name" is false. -/
theorem C5_cex_third_name_unchecked :
    telescopeCheck BAZIN_HEADER_COST ["4m", "8m", "XX"] true = Except.ok () ∧
    strContains BAZIN_HEADER_COST "cost_XX" = false := ⟨by rfl, by rfl⟩

/-- C5 amended: for a telescope list with at least two names, the
cost-enabled precondition check raises the configuration `ValueError`
iff the `cost_<name>` token of the *first* or the *second* name is
missing from the active header; names beyond the second are not
checked. -/
theorem C5_only_first_two_names_checked (header t0 t1 : String)
    (rest : List String) :
    telescopeCheck header (t0 :: t1 :: rest) true =
      (if strContains header ("cost_" ++ t0) &&
          strContains header ("cost_" ++ t1) then
        Except.ok ()
      else Except.error (PyErr.valueError telNameMsg)) := by
  unfold telescopeCheck
  simp only [List.getElem?_cons_zero, List.getElem?_cons_succ]
  cases hc0 : strContains header ("cost_" ++ t0) <;>
    cases hc1 : strContains header ("cost_" ++ t1) <;>
      simp [hc0, hc1]

/-- C6: calling `create_daily_file` with a header argument other than
`'Bazin'` raises `AttributeError` — the code writes `self.header`, an
attribute `__init__` never sets — instead of writing the caller's
header string; the day file is created but left empty. -/
theorem C6_custom_header_attribute_error :
    create_daily_file SNPCCPhotometry_init "id flux\n" false =
      Except.error (PyErr.attributeError "header") := by rfl

/-- C7 counterexample: the cost-free `'Bazin'` header has 20 fields
after the 7-field fixed prefix, not 29 — each of the 4 bands
contributes 5 model-parameter columns, not 7. -/
theorem C7_cex_twenty_not_29_params :
    ((lineFields BAZIN_HEADER_NOCOST).drop 7).length = 20 ∧
    ((lineFields BAZIN_HEADER_NOCOST).drop 7).length ≠ 29 :=
  ⟨by rfl, by decide⟩

/-- C7 amended: the cost-free `'Bazin'` header consists of the prefix
`id redshift type code orig_sample queryable last_rmag` followed by 5
named model-parameter columns for each of the 4 filter bands, i.e. 20
fields after the fixed prefix and 27 fields in total. -/
theorem C7_nocost_header_fields :
    lineFields BAZIN_HEADER_NOCOST = nocostHeaderFields ∧
    countFields BAZIN_HEADER_NOCOST = 27 := ⟨by rfl, by rfl⟩

/-- C8: initialising the day file twice and then building once yields
exactly the same file content and outcome as initialising once and
building once — the second initialisation truncates rather than
appends. -/
theorem C8_double_init_idempotent (st : PhotoState) (E : Ext) (a : BuildArgs)
    (header : String) (gc : Bool) (catalog : List RawLC) :
    runInitTwiceThenBuild st E a header gc catalog =
      runInitThenBuild st E a header gc catalog := by
  unfold runInitTwiceThenBuild runInitThenBuild
  by_cases hB : header = "Bazin"
  · cases gc <;> simp [create_daily_file, hB]
  · cases hA : st.headerAttr <;> simp [create_daily_file, hB, hA]

/-- C9 (documented contract violated by the code): the docstring says
the telescope lists are "Only used if `get_cost == True`", yet with
`get_cost = False` the precondition check still indexes
`tel_names[0]`/`tel_names[1]`: the one-element list `["4m"]` raises
`IndexError` (its `cost_4m` token is found, so `tel_names[1]` is
evaluated), while the default two-element list returns normally —
identical runs up to the telescope lists behave differently. -/
theorem C9_bug_tel_lists_used_without_cost :
    build_one_epoch SNPCCPhotometry_init trivExt argsOneTel [] =
      ([], some PyErr.indexError) ∧
    build_one_epoch SNPCCPhotometry_init trivExt argsPlain [] =
      ([], none) := ⟨by rfl, by rfl⟩

/-- C10: `create_daily_file` with header `'Bazin'` and `get_cost` false
permanently replaces the instance's `bazin_header` with the variant
lacking the cost columns, so a subsequent `build_one_epoch` with
`get_cost` true and the default telescope names raises the
telescope-name `ValueError`, for every collaborator record, catalog and
remaining argument choice. -/
theorem C10_create_mutates_bazin_header (E : Ext) (a : BuildArgs)
    (catalog : List RawLC) (hgc : a.getCost = true)
    (htn : a.telNames = ["4m", "8m"]) :
    create_daily_file SNPCCPhotometry_init "Bazin" false =
      Except.ok
        ({ SNPCCPhotometry_init with bazinHeader := BAZIN_HEADER_NOCOST },
          BAZIN_HEADER_NOCOST) ∧
    build_one_epoch
      { SNPCCPhotometry_init with bazinHeader := BAZIN_HEADER_NOCOST }
      E a catalog = ([], some (PyErr.valueError telNameMsg)) := by
  refine ⟨by rfl, ?_⟩
  have hT : telescopeCheck
      ({ SNPCCPhotometry_init with
          bazinHeader := BAZIN_HEADER_NOCOST }).bazinHeader
      ["4m", "8m"] a.getCost = Except.error (PyErr.valueError telNameMsg) := by
    unfold telescopeCheck
    simp only [List.getElem?_cons_zero]
    rw [if_pos (by rfl), if_pos hgc]
  unfold build_one_epoch
  rw [htn, hT]

/-- Witness for C10: the post-mutation failure at a concrete
collaborator record, argument vector and (empty) catalog. -/
theorem C10_create_mutates_bazin_header_witness :
    argsCost.getCost = true ∧
    build_one_epoch
      { SNPCCPhotometry_init with bazinHeader := BAZIN_HEADER_NOCOST }
      trivExt argsCost [] = ([], some (PyErr.valueError telNameMsg)) :=
  ⟨rfl, (C10_create_mutates_bazin_header trivExt argsCost [] rfl rfl).2⟩

end RESSPECT
